import Mathlib

/-!
Verification of the Tool Invocation & Recording Subsystem of XAgent
(`src/XAgent/tool_call_handle.py`): the response-envelope normalizer,
the HTTP-status classifier, the cache-or-call invoker, the bounded
retry loop, and the dispatcher entry point `FunctionHandler.handle_tool_call`.

Python values exchanged on the wire are modelled by the mutual inductive
`JValue`/`JArr`/`JObj`; Python exceptions by `Except` with error type
`PyErr` (resp. `ExecErr` once the invoker's own `raise` is in scope).
External library calls (base64 decoding, uuid generation, the LLM-backed
result summarizer) are parameters of the definitions.  Logging calls of
the source are not modelled; they produce no value.
-/

/-- Modelled from the spec: the closed enumeration `ToolCallStatusCode`
declared in `XAgent/utils.py` (not part of the sources here); §3 of the
spec lists exactly these members, and all of them are referenced by
`tool_call_handle.py`. -/
inductive ToolCallStatusCode where
  | TOOL_CALL_SUCCESS
  | HALLUCINATE_NAME
  | FORMAT_ERROR
  | TIMEOUT_ERROR
  | TOOL_CALL_FAILED
  | SERVER_ERROR
  | OTHER_ERROR
  | SUBMIT_AS_SUCCESS
  | SUBMIT_AS_FAILED
deriving DecidableEq

/-- Python exceptions raised by the modelled code paths. `recursionError`
models Python's recursion limit; it is reachable in `unwrapF` only when the
fuel is insufficient, which `unwrap_tool_response` rules out. -/
inductive PyErr where
  | keyError (key : String)
  | typeError
  | binasciiError
  | recursionError
deriving DecidableEq

mutual
/-- A Python/JSON value as handled by `tool_call_handle.py`.  `other` stands
for any Python object that is not a dict, str, int, float, bool, list or
None (the final `else` of `unwrap_tool_response`).  Python floats are not
modelled (no claim involves them). -/
inductive JValue where
  | null
  | bool (b : Bool)
  | int (n : Int)
  | str (s : String)
  | arr (xs : JArr)
  | obj (fields : JObj)
  | other (tag : String)
/-- A Python list of values. -/
inductive JArr where
  | nil
  | cons (hd : JValue) (tl : JArr)
/-- A Python dict, as the association list of its entries in insertion
order, which is the order Python iterates keys in. -/
inductive JObj where
  | nil
  | cons (k : String) (v : JValue) (tl : JObj)
end

mutual
/-- Structural equality of values, Python's `==` on the modelled fragment. -/
def JValue.beq : JValue → JValue → Bool
  | .null, .null => true
  | .bool a, .bool b => a == b
  | .int a, .int b => a == b
  | .str a, .str b => a == b
  | .arr a, .arr b => JArr.beq a b
  | .obj a, .obj b => JObj.beq a b
  | .other a, .other b => a == b
  | _, _ => false
/-- Elementwise equality of lists. -/
def JArr.beq : JArr → JArr → Bool
  | .nil, .nil => true
  | .cons a as, .cons b bs => JValue.beq a b && JArr.beq as bs
  | _, _ => false
/-- Entrywise equality of dicts (same insertion order assumed). -/
def JObj.beq : JObj → JObj → Bool
  | .nil, .nil => true
  | .cons k v tl, .cons k2 v2 tl2 => k == k2 && JValue.beq v v2 && JObj.beq tl tl2
  | _, _ => false
end

mutual
/-- Size of a value, used as fuel bound for the envelope normalizer. -/
def JValue.size : JValue → Nat
  | .null => 1
  | .bool _ => 1
  | .int _ => 1
  | .str _ => 1
  | .arr xs => 1 + JArr.size xs
  | .obj fs => 1 + JObj.size fs
  | .other _ => 1
/-- Size of a list of values. -/
def JArr.size : JArr → Nat
  | .nil => 1
  | .cons h t => 1 + JValue.size h + JArr.size t
/-- Size of a dict. -/
def JObj.size : JObj → Nat
  | .nil => 1
  | .cons _ v t => 1 + JValue.size v + JObj.size t
end

/-- Length of a Python list. -/
def JArr.length : JArr → Nat
  | .nil => 0
  | .cons _ t => 1 + JArr.length t

/-- Dictionary lookup: `obj[key]` when `some`, `key in obj` when `isSome`. -/
def jlookup : JObj → String → Option JValue
  | .nil, _ => none
  | .cons k v tl, key => if k = key then some v else jlookup tl key

/-- Source `is_wrapped_response` (tool_call_handle.py:20-34): the dict has a
`type` entry whose value is one of the strings simple/composite/binary, and
a `data` entry. -/
def is_wrapped_response (fs : JObj) : Bool :=
  match jlookup fs "type" with
  | some (.str "simple") => (jlookup fs "data").isSome
  | some (.str "composite") => (jlookup fs "data").isSome
  | some (.str "binary") => (jlookup fs "data").isSome
  | _ => false

/-- Character-list equality, used for computable prefix/suffix tests. -/
def chars_eq : List Char → List Char → Bool
  | [], [] => true
  | c :: cs, d :: ds => c == d && chars_eq cs ds
  | _, _ => false

/-- Python `s.endswith(p)` (computable form of String.endsWith). -/
def str_endsWith (s p : String) : Bool :=
  chars_eq (s.toList.drop (s.toList.length - p.toList.length)) p.toList

/-- Python `s.startswith(p)` (computable form of String.startsWith). -/
def str_startsWith (s p : String) : Bool :=
  chars_eq (s.toList.take p.toList.length) p.toList

/-- POSIX `os.path.join` as used with the fixed root `local_workspace`:
an absolute second component discards the root. -/
def os_path_join (root : String) (name : String) : String :=
  if str_startsWith name "/" then name else root ++ "/" ++ name

/-- Iterating a Python str yields its characters as one-character strings. -/
def charsArr : List Char → JArr
  | [] => .nil
  | c :: cs => .cons (.str c.toString) (charsArr cs)

/-- Iterating a Python dict yields its keys as strings, in insertion order. -/
def keysArr : JObj → JArr
  | .nil => .nil
  | .cons k _ tl => .cons (.str k) (keysArr tl)

/-- Threads the unwrap of each list element left to right, as the list
comprehension in the composite branch of `unwrap_tool_response` does,
accumulating the uuid counter and the file writes. -/
def mapExcept (g : JValue → Nat → Except PyErr (JValue × Nat × List (String × List Nat))) :
    JArr → Nat → Except PyErr (JArr × Nat × List (String × List Nat))
  | .nil, n => .ok (.nil, n, [])
  | .cons x tl, n =>
    match g x n with
    | .error e => .error e
    | .ok (v, n1, w1) =>
      match mapExcept g tl n1 with
      | .error e => .error e
      | .ok (vs, n2, w2) => .ok (.cons v vs, n2, w1 ++ w2)

/-- The file name used by the binary branch: if the declared media type is
image/png and the name does not already end in .png, the extension is
appended (tool_call_handle.py:54-55). -/
def binary_file_name (mt : JValue) (name0 : String) : String :=
  if (match mt with | JValue.str "image/png" => true | _ => false) && !(str_endsWith name0 ".png")
  then name0 ++ ".png" else name0

/-- The binary branch body (tool_call_handle.py:52-61) with the dict lookups
`media_type` and `name` and the eagerly generated uuid name passed in.
Points kept from the source: `obj['media_type']` raises KeyError when the
entry is absent; a non-str name raises TypeError downstream (at the png `+=`
when the media type is png, or at `os.path.join` otherwise); `b64decode` of a
non-str raises TypeError and of invalid base64 a binascii error. -/
def unwrap_binary_branch (b64 : String → Option (List Nat))
    (mt0 nm : Option JValue) (genName : String) (dv : JValue) (n : Nat) :
    Except PyErr (JValue × Nat × List (String × List Nat)) :=
  match mt0 with
  | none => .error (.keyError "media_type")
  | some mt =>
    match nm.getD (.str genName) with
    | .str name0 =>
      let name1 := binary_file_name mt name0
      match dv with
      | .str dataStr =>
        match b64 dataStr with
        | some bs =>
          .ok (.obj (.cons "media_type" mt (.cons "file_name" (.str name1) .nil)),
               n + 1, [(os_path_join "local_workspace" name1, bs)])
        | none => .error .binasciiError
      | _ => .error .typeError
    | _ => .error .typeError

/-- The composite branch body (tool_call_handle.py:62-63): the data is
iterated — a str iterates as its characters and a dict as its keys, each of
which is a plain str that unwraps to itself, so those iterations are inlined
without a recursive call, while a non-iterable raises TypeError; a list makes
one recursive call per element, in order. -/
def unwrap_composite_branch
    (recur : JValue → Nat → Except PyErr (JValue × Nat × List (String × List Nat)))
    (dv : JValue) (n : Nat) : Except PyErr (JValue × Nat × List (String × List Nat)) :=
  match dv with
  | .arr xs =>
    match mapExcept recur xs n with
    | .ok (vs, n2, w) => .ok (.arr vs, n2, w)
    | .error e => .error e
  | .str s => .ok (.arr (charsArr s.toList), n, [])
  | .obj gs => .ok (.arr (keysArr gs), n, [])
  | _ => .error .typeError

/-- The wrapped-dict branch of `unwrap_tool_response` (the `match obj['type']`
of tool_call_handle.py:49-63), lifted out with the four dict lookups (`type`,
`data`, `media_type`, `name`) and the eagerly generated uuid name passed as
arguments; `recur` is the recursive unwrap used for composite elements.  The
final `_, _` arm mirrors Python's `match` falling through (returning None);
it is unreachable when `is_wrapped_response` holds. -/
def unwrap_wrapped (b64 : String → Option (List Nat))
    (recur : JValue → Nat → Except PyErr (JValue × Nat × List (String × List Nat)))
    (t d mt0 nm : Option JValue) (genName : String) (n : Nat) :
    Except PyErr (JValue × Nat × List (String × List Nat)) :=
  match t, d with
  | some (.str "simple"), some dv => .ok (dv, n, [])
  | some (.str "binary"), some dv => unwrap_binary_branch b64 mt0 nm genName dv n
  | some (.str "composite"), some dv => unwrap_composite_branch recur dv n
  | _, _ => .ok (.null, n, [])

/-- Source `unwrap_tool_response` (tool_call_handle.py:36-70), with explicit
fuel so that the definition is structural and computable; the entry point
`unwrap_tool_response` below supplies sufficient fuel.  Parameters: `gen`
models `uuid.uuid4().hex` (a fresh-name supply indexed by a counter `n`;
the `.get` default is evaluated eagerly, so the counter advances whenever a
binary envelope succeeds), `b64` models `base64.b64decode` (`none` meaning a
binascii error).  The result carries the unwrapped value, the next counter
value, and the list of file writes as (path, decoded bytes) pairs; a write is
recorded only when the binary branch succeeds (on an error Python may have
opened the file already, which no claim observes). -/
def unwrapF (gen : Nat → String) (b64 : String → Option (List Nat)) :
    Nat → JValue → Nat → Except PyErr (JValue × Nat × List (String × List Nat))
  | 0, _, _ => .error .recursionError
  | f + 1, v, n =>
    match v with
    | .obj fs =>
      if is_wrapped_response fs then
        unwrap_wrapped b64 (unwrapF gen b64 f)
          (jlookup fs "type") (jlookup fs "data")
          (jlookup fs "media_type") (jlookup fs "name") (gen n) n
      else .ok (.obj fs, n, [])
    | .str s => .ok (.str s, n, [])
    | .int k => .ok (.int k, n, [])
    | .bool b => .ok (.bool b, n, [])
    | .arr xs => .ok (.arr xs, n, [])
    | .null => .ok (.null, n, [])
    | .other _ => .ok (.null, n, [])

/-- Entry point of the normalizer: `unwrapF` with always-sufficient fuel. -/
def unwrap_tool_response (gen : Nat → String) (b64 : String → Option (List Nat))
    (v : JValue) (n : Nat) : Except PyErr (JValue × Nat × List (String × List Nat)) :=
  unwrapF gen b64 (JValue.size v + 1) v n

mutual
/-- Modelled from the spec (§4.4, §6): the tool server's wrapping of a plain
value into a wire envelope, the inverse direction of the normalizer.  A list
becomes a composite envelope with each element wrapped; any other value
becomes a simple envelope carrying it verbatim. -/
def spec_wrap : JValue → JValue
  | .arr xs => .obj (.cons "type" (.str "composite") (.cons "data" (.arr (spec_wrapArr xs)) .nil))
  | v => .obj (.cons "type" (.str "simple") (.cons "data" v .nil))
/-- Wraps each element of a list. -/
def spec_wrapArr : JArr → JArr
  | .nil => .nil
  | .cons x tl => .cons (spec_wrap x) (spec_wrapArr tl)
end

/-- A transport-level failure of `requests.post` (connection refused, DNS
failure, ...), which in Python surfaces as a raised exception. -/
inductive TransportErr where
  | connectionError
deriving DecidableEq

/-- Source `ToolServerInterface.close` (tool_call_handle.py:100-104): one
POST to /close_session whose response object is discarded without any check
(no `raise_for_status`), and with no try/except around it, so a transport
exception from `requests.post` propagates to the caller. `post` is the
outcome of the POST: a status code, or a raised transport error. -/
def ToolServerInterface.close (post : Except TransportErr Int) : Except TransportErr Unit :=
  match post with
  | .ok _ => .ok ()
  | .error e => .error e

/-- One record of the recorder's tool-server cache: the stored output and
the stored raw response status (an int for HTTP calls; the human-help path
stores a str, so the field is a `JValue`). -/
structure CacheRecord where
  tool_output : JValue
  response_status_code : JValue

/-- Modelled from the spec (§4.2): the recorder's cache as a lookup/store
association of `(endpoint, payload)` keys to records; not part of the
sources here (`XAgent/running_recorder.py`).  A later `lookup` finds a
prior `store` with the same key. -/
abbrev Cache := List ((String × JValue) × CacheRecord)

/-- Modelled from the spec: `recorder.query_tool_server_cache(url, payload)`,
the `lookup` half of the §4.2 contract (most recent store wins). -/
def query_tool_server_cache (c : Cache) (url : String) (payload : JValue) : Option CacheRecord :=
  match c with
  | [] => none
  | (k, r) :: tl =>
    if k.1 == url && JValue.beq k.2 payload then some r
    else query_tool_server_cache tl url payload

/-- Modelled from the spec: `recorder.regist_tool_server(url, payload,
tool_output, response_status_code)`, the `store` half of the §4.2 contract. -/
def regist_tool_server (c : Cache) (url : String) (payload : JValue) (r : CacheRecord) : Cache :=
  ((url, payload), r) :: c

/-- Source lines 347-362: the if/elif chain mapping the raw response status
to a `ToolCallStatusCode`.  Python's `==` between a non-int status (the
human-help path stores a str) and an int literal is False, so any non-int
falls through to `OTHER_ERROR`. -/
def classify_status (s : JValue) : ToolCallStatusCode :=
  match s with
  | .int n =>
    if n = 200 then .TOOL_CALL_SUCCESS
    else if n = 404 then .HALLUCINATE_NAME
    else if n = 422 then .FORMAT_ERROR
    else if n = 450 then .TIMEOUT_ERROR
    else if n = 500 then .TOOL_CALL_FAILED
    else if n = 503 then .SERVER_ERROR
    else .OTHER_ERROR
  | _ => .OTHER_ERROR

/-- Errors that abort `execute_command_client` or `handle_tool_call`:
a propagated Python exception, the explicit `raise Exception(f"Server
Error: ...")` of the 503 branch (carrying the command result), or the
`assert False` of the human_interruption branch. -/
inductive ExecErr where
  | py (e : PyErr)
  | serverError (command_result : JValue)
  | assertionError

/-- Source lines 347-366 as one step: the status chain assigns exactly one
code; in the 503 branch the source then raises (`Exception(f"Server Error:
{command_result}")`), in every other branch the pair is returned. -/
def classify_outcome (command_result : JValue) (s : JValue) :
    Except ExecErr (JValue × ToolCallStatusCode) :=
  if classify_status s = .SERVER_ERROR then .error (.serverError command_result)
  else .ok (command_result, classify_status s)

/-- What `requests.post(url, json=payload, cookies=...)` came back with (when
it is issued at all): the integer HTTP status, the parsed JSON body (used by
the source only when the status is 200 or 450), and the raw text body. -/
structure NetResponse where
  status_code : Int
  json : JValue
  text : String

/-- The full observable outcome of one `execute_command_client` run:
the returned pair or the raised error, whether a network call was issued,
the cache after the run, the uuid counter after the run, and the files
written by the normalizer. -/
structure ExecOutcome where
  outcome : Except ExecErr (JValue × ToolCallStatusCode)
  network_called : Bool
  cache2 : Cache
  counter2 : Nat
  writes : List (String × List Nat)

/-- Source `ToolServerInterface.execute_command_client`
(tool_call_handle.py:295-366).  `redo` is `CONFIG['experiment']['redo_action']`,
`c` the recorder cache, `net` what the POST to /execute_tool would return if
issued.  Control flow kept from the source: the cache is queried first; the
network call is issued when `redo` is set or the cache missed; a fresh
response with status 200 or 450 has its JSON body unwrapped (which can
raise), any other status uses the raw text; then, whenever a cached record
exists, it overrides the fresh result; the record is registered; finally the
status chain classifies, raising on 503.  The str-arguments `json.loads`
preprocessing of lines 314-318 is not modelled: `arguments` is already
structured.  On the no-network path the two locals are unassigned in Python;
the placeholders below are dead because the cache override always fires
there.  `exec_payload` is the body sent to the POST and also the cache key
part (tool_call_handle.py:319-323). -/
def exec_payload (command_name : String) (arguments : JValue) : JValue :=
  .obj (.cons "tool_name" (.str command_name) (.cons "arguments" arguments .nil))

/-- The fixed endpoint of `execute_command_client`. -/
def EXECUTE_TOOL_URL : String := "/execute_tool"

/-- Source `ToolServerInterface.execute_command_client`, continued: see the
comment on `exec_payload` just above for the conventions. -/
def execute_command_client (redo : Bool) (c : Cache)
    (gen : Nat → String) (b64 : String → Option (List Nat)) (n : Nat)
    (command_name : String) (arguments : JValue) (net : NetResponse) : ExecOutcome :=
  let url := EXECUTE_TOOL_URL
  let payload : JValue := exec_payload command_name arguments
  let cache_output := query_tool_server_cache c url payload
  let networkCalled := redo || cache_output.isNone
  let fresh : Except PyErr (JValue × JValue × Nat × List (String × List Nat)) :=
    if networkCalled then
      if net.status_code = 200 ∨ net.status_code = 450 then
        match unwrap_tool_response gen b64 net.json n with
        | .ok (v, n2, w) => .ok (v, .int net.status_code, n2, w)
        | .error e => .error e
      else .ok (.str net.text, .int net.status_code, n, [])
    else .ok (.null, .null, n, [])
  match fresh with
  | .error e => ⟨.error (.py e), networkCalled, c, n, []⟩
  | .ok (res0, status0, n2, w) =>
    let command_result := match cache_output with
      | some r => r.tool_output
      | none => res0
    let response_status_code := match cache_output with
      | some r => r.response_status_code
      | none => status0
    let c2 := regist_tool_server c url payload ⟨command_result, response_status_code⟩
    ⟨classify_outcome command_result response_status_code, networkCalled, c2, n2, w⟩

/-- Python `obj[key]` on a value: KeyError when the key is absent from a
dict, TypeError when subscripting with a str anything that is not a dict. -/
def pyGetItem (v : JValue) (k : String) : Except PyErr JValue :=
  match v with
  | .obj fs =>
    match jlookup fs k with
    | some x => .ok x
    | none => .error (.keyError k)
  | _ => .error .typeError

/-- Python truthiness, `bool(x)` / `if x:`. -/
def pyTruthy : JValue → Bool
  | .null => false
  | .bool b => b
  | .int k => k != 0
  | .str s => !s.isEmpty
  | .arr .nil => false
  | .arr _ => true
  | .obj .nil => false
  | .obj _ => true
  | .other _ => true

/-- Python `str(x)` for the scalar shapes; the repr of containers and of
unknown objects is not modelled (no claim formats one). -/
def pyStr : JValue → String
  | .null => "None"
  | .bool true => "True"
  | .bool false => "False"
  | .int k => toString k
  | .str s => s
  | .arr _ => "<list>"
  | .obj _ => "<dict>"
  | .other t => t

/-- JSON string escaping as `json.dumps` with ensure_ascii=False applies to
the content value; control-character escapes are not modelled (no claim
contains one). -/
def json_escape_string (s : String) : String :=
  String.join (s.toList.map fun c =>
    if c = '"' then "\\\"" else if c = '\\' then "\\\\" else c.toString)

/-- The serialized acknowledgment `json.dumps({"content": s}, ensure_ascii=False)`. -/
def json_dumps_content (s : String) : String :=
  "\x7b\"content\": \"" ++ json_escape_string s ++ "\"\x7d"

/-- Source `FunctionHandler.handle_subtask_submit` (tool_call_handle.py:622-648):
truthiness of `arguments["result"]["success"]` picks SUBMIT_AS_SUCCESS or
SUBMIT_AS_FAILED, `bool(arguments["suggestions_for_latter_subtasks_plan"]
["need_for_plan_refine"])` is the plan-refine flag, and the result is the
serialized acknowledgment naming `arguments['submit_type']`.  Returns
(plan_refine, status code, command result). -/
def handle_subtask_submit (arguments : JValue) :
    Except PyErr (Bool × ToolCallStatusCode × JValue) := do
  let res ← pyGetItem arguments "result"
  let success ← pyGetItem res "success"
  let tool_output_status_code :=
    if pyTruthy success then ToolCallStatusCode.SUBMIT_AS_SUCCESS
    else ToolCallStatusCode.SUBMIT_AS_FAILED
  let sugg ← pyGetItem arguments "suggestions_for_latter_subtasks_plan"
  let npr ← pyGetItem sugg "need_for_plan_refine"
  let plan_refine := pyTruthy npr
  let st ← pyGetItem arguments "submit_type"
  let answer := "you have successfully submit the subtask as " ++ pyStr st
  .ok (plan_refine, tool_output_status_code, .str (json_dumps_content answer))

/-- Source `FunctionHandler.handle_human_help` (tool_call_handle.py:650-685):
consults the cache under the fixed url `ask_human` first; on a miss blocks
on `input()` (modelled by the `human_input` parameter) and wraps the answer;
either way re-registers the exchange and reports TOOL_CALL_SUCCESS.  The
miss path stores the str status `human has no status :)`.  Returns
((plan_refine, status code, command result), cache after the call). -/
def handle_human_help (c : Cache) (human_input : String) (arguments : JValue) :
    (Bool × ToolCallStatusCode × JValue) × Cache :=
  let url := "ask_human"
  match query_tool_server_cache c url arguments with
  | some r =>
    ((false, .TOOL_CALL_SUCCESS, r.tool_output),
     regist_tool_server c url arguments ⟨r.tool_output, r.response_status_code⟩)
  | none =>
    let out : JValue := .str ("\x7b\"output\": \"" ++ json_escape_string human_input ++ "\"\x7d")
    ((false, .TOOL_CALL_SUCCESS, out),
     regist_tool_server c url arguments ⟨out, .str "human has no status :)"⟩)

/-- Source constant MAX_RETRY (tool_call_handle.py:556). -/
def MAX_RETRY : Nat := 10

/-- Source line 568: the terminal message substituted when the retry budget
is exhausted while still timing out. -/
def TERMINAL_TIMEOUT_MSG : String :=
  "Timeout and no content returned! Please check the content you submit!"

/-- The tail of the while condition (tool_call_handle.py:558):
`'type' in command_result['detail'] and command_result['detail']['type'] ==
'retry'`, evaluated on the looked-up `type` entry. -/
def is_retry_tag : Option JValue → Bool
  | some (.str "retry") => true
  | _ => false

/-- The full structured retry directive of the while condition and body
(tool_call_handle.py:558-564): the result is a dict whose `detail` is a
dict with `type` equal to `retry` and with `next_calling` and `arguments`
entries present. -/
def directive_full (v : JValue) : Bool :=
  match v with
  | .obj fs =>
    match jlookup fs "detail" with
    | some (.obj ds) =>
      is_retry_tag (jlookup ds "type")
      && (jlookup ds "next_calling").isSome
      && (jlookup ds "arguments").isSome
    | _ => false
  | _ => false

/-- The retry loop of `handle_tool_call` (tool_call_handle.py:556-564),
with the remaining budget `MAX_RETRY - retry_time` as the recursion
argument.  The loop condition is evaluated left to right as in Python:
budget first, then the status, then the directive shape, whose evaluation
itself can raise (`command_result['detail']` is a KeyError on a dict
without the key and a TypeError on a non-dict; `['next_calling']` and
`['arguments']` can raise KeyError in the body).  `call` abstracts
`toolserver_interface.execute_command_client`; each iteration sleeps 3
seconds before re-issuing.  Returns the final (result, status), the number
of retries performed, and the list of sleep durations. -/
def retry_go (call : JValue → JValue → Except ExecErr (JValue × ToolCallStatusCode)) :
    Nat → JValue × ToolCallStatusCode →
    Except ExecErr ((JValue × ToolCallStatusCode) × Nat × List Nat)
  | 0, st => .ok (st, 0, [])
  | remaining + 1, (res, code) =>
    if code = .TIMEOUT_ERROR then
      match res with
      | .obj fs =>
        match jlookup fs "detail" with
        | none => .error (.py (.keyError "detail"))
        | some (.obj ds) =>
          if is_retry_tag (jlookup ds "type") then
            match jlookup ds "next_calling" with
            | none => .error (.py (.keyError "next_calling"))
            | some nc =>
              match jlookup ds "arguments" with
              | none => .error (.py (.keyError "arguments"))
              | some ar =>
                match call nc ar with
                | .error e => .error e
                | .ok (res2, code2) =>
                  match retry_go call remaining (res2, code2) with
                  | .error e => .error e
                  | .ok (st, k, sl) => .ok (st, k + 1, 3 :: sl)
          else .ok ((res, code), 0, [])
        | some _ => .ok ((res, code), 0, [])
      | _ => .error (.py .typeError)
    else .ok ((res, code), 0, [])

/-- The remote branch of `handle_tool_call` (tool_call_handle.py:549-568):
initial `execute_command_client` call, the retry loop, then the terminal
substitution when the status is still TIMEOUT_ERROR after the full budget.
Returns the final (result, status), the retries performed, and the sleeps. -/
def handle_remote_call (call : JValue → JValue → Except ExecErr (JValue × ToolCallStatusCode))
    (command_name : String) (arguments : JValue) :
    Except ExecErr ((JValue × ToolCallStatusCode) × Nat × List Nat) :=
  match call (.str command_name) arguments with
  | .error e => .error e
  | .ok (res, code) =>
    match retry_go call MAX_RETRY (res, code) with
    | .error e => .error e
    | .ok ((res2, code2), k, sl) =>
      let res3 := if code2 = .TIMEOUT_ERROR ∧ k = MAX_RETRY then .str TERMINAL_TIMEOUT_MSG else res2
      .ok ((res3, code2), k, sl)

/-- Source `FunctionHandler.handle_tool_call` (tool_call_handle.py:517-620),
reduced to its observable dispatch behavior: the four-way branch on the
command name, the retry loop of the remote branch, and the summarization
hook.  `call` abstracts `toolserver_interface.execute_command_client`;
`lrs` abstracts `long_result_summary` (applied, as in the source, only when
the final status is TOOL_CALL_SUCCESS — it delegates to the external LLM
wrapper for the two WebEnv commands and is the identity otherwise); `c` and
`human_input` feed the human-help branch.  Logging and the recorder's
tool-call audit record are not modelled.  Returns ((command result, status
code), plan_refine, number of `execute_command_client` calls issued, sleep
durations, cache after the call). -/
def handle_tool_call (call : JValue → JValue → Except ExecErr (JValue × ToolCallStatusCode))
    (lrs : Option String → JValue → JValue) (c : Cache) (human_input : String)
    (command_name : Option String) (arguments : JValue) :
    Except ExecErr ((JValue × ToolCallStatusCode) × Bool × Nat × List Nat × Cache) :=
  let branch : Except ExecErr ((JValue × ToolCallStatusCode) × Bool × Nat × List Nat × Cache) :=
    if command_name = some "subtask_submit" then
      match handle_subtask_submit arguments with
      | .error e => .error (.py e)
      | .ok (plan_refine, code, res) => .ok ((res, code), plan_refine, 0, [], c)
    else if command_name = some "ask_human_for_help" then
      match handle_human_help c human_input arguments with
      | ((plan_refine, code, res), c2) => .ok ((res, code), plan_refine, 0, [], c2)
    else if command_name = some "human_interruption" then
      .error .assertionError
    else if command_name = some "" ∨ command_name = none then
      .ok ((.str "", .TOOL_CALL_SUCCESS), false, 0, [], c)
    else
      match command_name with
      | some nm =>
        match handle_remote_call call nm arguments with
        | .error e => .error e
        | .ok ((res, code), k, sl) => .ok ((res, code), false, k + 1, sl, c)
      | none => .ok ((.str "", .TOOL_CALL_SUCCESS), false, 0, [], c)
  match branch with
  | .error e => .error e
  | .ok ((res, code), plan_refine, k, sl, c2) =>
    let res2 := if code = .TOOL_CALL_SUCCESS then lrs command_name res else res
    .ok ((res2, code), plan_refine, k, sl, c2)

/-- Fixture fresh-name supply for concrete evaluations. -/
def gen_fixture : Nat → String := fun k => "uuid" ++ toString k

/-- Fixture base64 decoder for concrete evaluations: decodes everything to
the empty byte string. -/
def b64_fixture : String → Option (List Nat) := fun _ => some []

/-- Fixture summarizer for concrete evaluations (identity). -/
def lrs_fixture : Option String → JValue → JValue := fun _ v => v

/-- Fixture timeout payload carrying a full retry directive. -/
def directive_fixture : JValue :=
  .obj (.cons "detail"
    (.obj (.cons "type" (.str "retry")
      (.cons "next_calling" (.str "again") (.cons "arguments" .null .nil)))) .nil)

/-- Fixture invoker that always times out with a full retry directive. -/
def call_timeout_fixture : JValue → JValue → Except ExecErr (JValue × ToolCallStatusCode) :=
  fun _ _ => .ok (directive_fixture, .TIMEOUT_ERROR)

/-- Fixture binary envelope whose supplied name is an absolute path. -/
def binary_abs_name_fixture : JValue :=
  .obj (.cons "type" (.str "binary")
    (.cons "data" (.str "")
      (.cons "name" (.str "/evil.png")
        (.cons "media_type" (.str "image/png") .nil))))

/-- Fixture binary envelope with a relative name lacking the png suffix. -/
def binary_rel_name_fixture : JValue :=
  .obj (.cons "type" (.str "binary")
    (.cons "data" (.str "")
      (.cons "name" (.str "pic")
        (.cons "media_type" (.str "image/png") .nil))))

/-- Fixture cache holding one record for the call (tool t, null args). -/
def c10_cache_fixture : Cache :=
  [((EXECUTE_TOOL_URL, exec_payload "t" JValue.null), ⟨.str "cached", .int 200⟩)]

/-- Fixture network response: status 200 with a malformed binary body
(missing media_type). -/
def c10_net_fixture : NetResponse :=
  ⟨200, .obj (.cons "type" (.str "binary") (.cons "data" (.str "x") .nil)), "raw"⟩

/-! ## Helper lemmas -/

mutual
theorem jvalue_beq_refl : ∀ v : JValue, JValue.beq v v = true
  | .null => rfl
  | .bool b => by simp [JValue.beq]
  | .int n => by simp [JValue.beq]
  | .str s => by simp [JValue.beq]
  | .arr xs => by simp [JValue.beq, jarr_beq_refl xs]
  | .obj fs => by simp [JValue.beq, jobj_beq_refl fs]
  | .other t => by simp [JValue.beq]
theorem jarr_beq_refl : ∀ xs : JArr, JArr.beq xs xs = true
  | .nil => rfl
  | .cons h t => by simp [JArr.beq, jvalue_beq_refl h, jarr_beq_refl t]
theorem jobj_beq_refl : ∀ fs : JObj, JObj.beq fs fs = true
  | .nil => rfl
  | .cons k v t => by simp [JObj.beq, jvalue_beq_refl v, jobj_beq_refl t]
end

theorem jvalue_size_pos (v : JValue) : 0 < JValue.size v := by
  cases v <;> simp [JValue.size]

theorem jarr_size_pos (xs : JArr) : 0 < JArr.size xs := by
  cases xs <;> simp [JArr.size]

theorem jobj_size_pos (fs : JObj) : 0 < JObj.size fs := by
  cases fs <;> simp [JObj.size]

theorem jlookup_size : ∀ (fs : JObj) (k : String) (v : JValue),
    jlookup fs k = some v → JValue.size v < JObj.size fs
  | .nil, k, v, h => by simp [jlookup] at h
  | .cons k2 v2 tl, k, v, h => by
    by_cases hk : k2 = k
    · simp [jlookup, hk] at h
      subst h
      have := jobj_size_pos tl
      simp [JObj.size]
      omega
    · simp [jlookup, hk] at h
      have := jlookup_size tl k v h
      have := jvalue_size_pos v2
      simp [JObj.size]
      omega

/-- A later lookup with the same key finds a prior store (spec §4.2). -/
theorem query_regist (c : Cache) (url : String) (payload : JValue) (r : CacheRecord) :
    query_tool_server_cache (regist_tool_server c url payload r) url payload = some r := by
  simp [query_tool_server_cache, regist_tool_server, jvalue_beq_refl]


/-- Two elementwise functions that agree on values of size at most B give
the same threaded map on lists of size at most B + 2. -/
theorem mapExcept_congr (g h : JValue → Nat → Except PyErr (JValue × Nat × List (String × List Nat)))
    (B : Nat) (H : ∀ x n, JValue.size x ≤ B → g x n = h x n) :
    ∀ (xs : JArr) (n : Nat), JArr.size xs ≤ B + 2 → mapExcept g xs n = mapExcept h xs n
  | .nil, n, _ => rfl
  | .cons x tl, n, hb => by
    have hx : JValue.size x ≤ B := by
      have := jarr_size_pos tl
      simp [JArr.size] at hb
      omega
    have htl : JArr.size tl ≤ B + 2 := by
      have := jvalue_size_pos x
      simp [JArr.size] at hb
      omega
    cases hhx : h x n with
    | error e => simp only [mapExcept, H x n hx, hhx]
    | ok t =>
      rcases t with ⟨v, n1, w1⟩
      simp only [mapExcept, H x n hx, hhx]
      rw [mapExcept_congr g h B H tl n1 htl]

/-- One unfolding step of the normalizer on a dict. -/
theorem unwrapF_obj (gen : Nat → String) (b64 : String → Option (List Nat))
    (f : Nat) (fs : JObj) (n : Nat) :
    unwrapF gen b64 (f + 1) (.obj fs) n =
      if is_wrapped_response fs then
        unwrap_wrapped b64 (unwrapF gen b64 f)
          (jlookup fs "type") (jlookup fs "data")
          (jlookup fs "media_type") (jlookup fs "name") (gen n) n
      else .ok (.obj fs, n, []) := rfl

/-- A wrapped dict has a data entry and one of the three type tags. -/
theorem is_wrapped_cases {fs : JObj} (hw : is_wrapped_response fs = true) :
    (∃ d, jlookup fs "data" = some d) ∧
      (jlookup fs "type" = some (.str "simple") ∨
       jlookup fs "type" = some (.str "composite") ∨
       jlookup fs "type" = some (.str "binary")) := by
  unfold is_wrapped_response at hw
  split at hw
  · exact ⟨Option.isSome_iff_exists.mp hw, Or.inl (by assumption)⟩
  · exact ⟨Option.isSome_iff_exists.mp hw, Or.inr (Or.inl (by assumption))⟩
  · exact ⟨Option.isSome_iff_exists.mp hw, Or.inr (Or.inr (by assumption))⟩
  · exact absurd hw (by simp)

/-- The simple branch returns the data verbatim, whatever the fuel. -/
theorem unwrapF_simple (gen : Nat → String) (b64 : String → Option (List Nat))
    (f : Nat) (fs : JObj) (d : JValue) (n : Nat)
    (ht : jlookup fs "type" = some (.str "simple"))
    (hd : jlookup fs "data" = some d) :
    unwrapF gen b64 (f + 1) (.obj fs) n = .ok (d, n, []) := by
  have hw : is_wrapped_response fs = true := by simp [is_wrapped_response, ht, hd]
  rw [unwrapF_obj, hw, ht, hd]
  rfl

/-- The binary branch does not depend on the fuel. -/
theorem unwrapF_binary (gen : Nat → String) (b64 : String → Option (List Nat))
    (f : Nat) (fs : JObj) (d : JValue) (n : Nat)
    (ht : jlookup fs "type" = some (.str "binary"))
    (hd : jlookup fs "data" = some d) :
    unwrapF gen b64 (f + 1) (.obj fs) n =
      unwrap_binary_branch b64 (jlookup fs "media_type") (jlookup fs "name") (gen n) d n := by
  have hw : is_wrapped_response fs = true := by simp [is_wrapped_response, ht, hd]
  rw [unwrapF_obj, hw, ht, hd]
  rfl

/-- The composite branch: recursion only happens when the data is a list. -/
theorem unwrapF_composite (gen : Nat → String) (b64 : String → Option (List Nat))
    (f : Nat) (fs : JObj) (d : JValue) (n : Nat)
    (ht : jlookup fs "type" = some (.str "composite"))
    (hd : jlookup fs "data" = some d) :
    unwrapF gen b64 (f + 1) (.obj fs) n =
      unwrap_composite_branch (unwrapF gen b64 f) d n := by
  have hw : is_wrapped_response fs = true := by simp [is_wrapped_response, ht, hd]
  rw [unwrapF_obj, hw, ht, hd]
  rfl

/-- A non-wrapped dict passes through unchanged, whatever the fuel. -/
theorem unwrapF_notWrapped (gen : Nat → String) (b64 : String → Option (List Nat))
    (f : Nat) (fs : JObj) (n : Nat) (hw : is_wrapped_response fs = false) :
    unwrapF gen b64 (f + 1) (.obj fs) n = .ok (.obj fs, n, []) := by
  rw [unwrapF_obj, hw]
  rfl

/-- The normalizer does not depend on the exact fuel once the fuel is
sufficient for the value. -/
theorem unwrapF_mono (gen : Nat → String) (b64 : String → Option (List Nat)) :
    ∀ (f g : Nat) (v : JValue) (n : Nat), JValue.size v ≤ f → JValue.size v ≤ g →
      unwrapF gen b64 (f + 1) v n = unwrapF gen b64 (g + 1) v n
  | 0, g, v, n, hf, _ => by have := jvalue_size_pos v; omega
  | f + 1, g, v, n, hf, hg => by
    cases v with
    | null => rfl
    | bool b => rfl
    | int k => rfl
    | str s => rfl
    | arr xs => rfl
    | other t => rfl
    | obj fs =>
      by_cases hw : is_wrapped_response fs
      · obtain ⟨⟨d, hd⟩, htypes⟩ := is_wrapped_cases hw
        rcases htypes with ht | ht | ht
        · rw [unwrapF_simple gen b64 (f + 1) fs d n ht hd,
              unwrapF_simple gen b64 g fs d n ht hd]
        · rw [unwrapF_composite gen b64 (f + 1) fs d n ht hd,
              unwrapF_composite gen b64 g fs d n ht hd]
          cases d with
          | arr xs =>
            obtain ⟨g2, rfl⟩ : ∃ g2, g = g2 + 1 := by
              have := jobj_size_pos fs
              simp [JValue.size] at hg
              exact ⟨g - 1, by omega⟩
            have hsz : JValue.size (.arr xs) < JObj.size fs := jlookup_size fs "data" _ hd
            have harr : JArr.size xs ≤ min f g2 + 2 := by
              simp [JValue.size] at hsz hf hg
              omega
            simp only [unwrap_composite_branch]
            rw [mapExcept_congr (unwrapF gen b64 (f + 1)) (unwrapF gen b64 (g2 + 1))
                  (min f g2)
                  (fun x m hx =>
                    unwrapF_mono gen b64 f g2 x m
                      (le_trans hx (Nat.min_le_left f g2))
                      (le_trans hx (Nat.min_le_right f g2)))
                  xs n harr]
          | null => rfl
          | bool b => rfl
          | int k => rfl
          | str s => rfl
          | obj gs => rfl
          | other t => rfl
        · rw [unwrapF_binary gen b64 (f + 1) fs d n ht hd,
              unwrapF_binary gen b64 g fs d n ht hd]
      · simp at hw
        rw [unwrapF_notWrapped gen b64 (f + 1) fs n hw,
            unwrapF_notWrapped gen b64 g fs n hw]

/-- Entry-point form of the simple branch: the data comes back verbatim. -/
theorem unwrap_tool_response_simple (gen : Nat → String) (b64 : String → Option (List Nat))
    (fs : JObj) (d : JValue) (n : Nat)
    (ht : jlookup fs "type" = some (.str "simple"))
    (hd : jlookup fs "data" = some d) :
    unwrap_tool_response gen b64 (.obj fs) n = .ok (d, n, []) :=
  unwrapF_simple gen b64 (JValue.size (.obj fs)) fs d n ht hd

/-- Entry-point form of the binary branch. -/
theorem unwrap_tool_response_binary (gen : Nat → String) (b64 : String → Option (List Nat))
    (fs : JObj) (d : JValue) (n : Nat)
    (ht : jlookup fs "type" = some (.str "binary"))
    (hd : jlookup fs "data" = some d) :
    unwrap_tool_response gen b64 (.obj fs) n =
      unwrap_binary_branch b64 (jlookup fs "media_type") (jlookup fs "name") (gen n) d n :=
  unwrapF_binary gen b64 (JValue.size (.obj fs)) fs d n ht hd

/-- Entry-point form of the composite branch on a list: each element is
normalized recursively, in order, threading counter and writes. -/
theorem unwrap_tool_response_composite (gen : Nat → String) (b64 : String → Option (List Nat))
    (fs : JObj) (xs : JArr) (n : Nat)
    (ht : jlookup fs "type" = some (.str "composite"))
    (hd : jlookup fs "data" = some (.arr xs)) :
    unwrap_tool_response gen b64 (.obj fs) n =
      (mapExcept (unwrap_tool_response gen b64) xs n).map (fun p => (.arr p.1, p.2)) := by
  have step := unwrapF_composite gen b64 (JValue.size (.obj fs)) fs (.arr xs) n ht hd
  have hfuel : JValue.size (JValue.obj fs) = JObj.size fs + 1 := by
    simp [JValue.size]
    omega
  have hsz : JValue.size (.arr xs) < JObj.size fs := jlookup_size fs "data" _ hd
  have hcongr : mapExcept (unwrapF gen b64 (JValue.size (.obj fs))) xs n
      = mapExcept (unwrap_tool_response gen b64) xs n := by
    rw [hfuel]
    refine mapExcept_congr _ _ (JObj.size fs) (fun x m hx => ?_) xs n ?_
    · exact unwrapF_mono gen b64 (JObj.size fs) (JValue.size x) x m hx (le_refl _)
    · simp [JValue.size] at hsz
      omega
  rw [show unwrap_tool_response gen b64 (.obj fs) n
        = unwrapF gen b64 (JValue.size (.obj fs) + 1) (.obj fs) n from rfl,
      step]
  rw [unwrap_composite_branch, hcongr]
  cases mapExcept (unwrap_tool_response gen b64) xs n with
  | error e => rfl
  | ok t => rfl

/-- Entry-point form of an unrecognized dict: pass-through. -/
theorem unwrap_tool_response_notWrapped (gen : Nat → String) (b64 : String → Option (List Nat))
    (fs : JObj) (n : Nat) (hw : is_wrapped_response fs = false) :
    unwrap_tool_response gen b64 (.obj fs) n = .ok (.obj fs, n, []) :=
  unwrapF_notWrapped gen b64 (JValue.size (.obj fs)) fs n hw

/-- A successful threaded map preserves the length of the list. -/
theorem mapExcept_length (g : JValue → Nat → Except PyErr (JValue × Nat × List (String × List Nat))) :
    ∀ (xs vs : JArr) (n n2 : Nat) (w : List (String × List Nat)),
      mapExcept g xs n = .ok (vs, n2, w) → JArr.length vs = JArr.length xs
  | .nil, vs, n, n2, w, h => by
    simp only [mapExcept, Except.ok.injEq, Prod.mk.injEq] at h
    obtain ⟨h1, -, -⟩ := h
    subst h1
    rfl
  | .cons x tl, vs, n, n2, w, h => by
    simp only [mapExcept] at h
    cases hgx : g x n with
    | error e => rw [hgx] at h; exact absurd h (by simp)
    | ok t =>
      rcases t with ⟨v, n1, w1⟩
      rw [hgx] at h
      dsimp only at h
      cases hrec : mapExcept g tl n1 with
      | error e => rw [hrec] at h; exact absurd h (by simp)
      | ok t2 =>
        rcases t2 with ⟨vs2, n3, w2⟩
        rw [hrec] at h
        simp only [Except.ok.injEq, Prod.mk.injEq] at h
        obtain ⟨h1, -, -⟩ := h
        subst h1
        simp [JArr.length, mapExcept_length g tl vs2 n1 n3 w2 hrec]

mutual
/-- Round trip: unwrapping the spec's wrapping of any value returns the value
unchanged, with no counter movement and no file writes. -/
theorem unwrap_spec_wrap (gen : Nat → String) (b64 : String → Option (List Nat)) :
    ∀ (x : JValue) (n : Nat), unwrap_tool_response gen b64 (spec_wrap x) n = .ok (x, n, [])
  | .null, n => unwrap_tool_response_simple gen b64 _ _ n rfl rfl
  | .bool b, n => unwrap_tool_response_simple gen b64 _ _ n rfl rfl
  | .int k, n => unwrap_tool_response_simple gen b64 _ _ n rfl rfl
  | .str s, n => unwrap_tool_response_simple gen b64 _ _ n rfl rfl
  | .obj fs, n => unwrap_tool_response_simple gen b64 _ _ n rfl rfl
  | .other t, n => unwrap_tool_response_simple gen b64 _ _ n rfl rfl
  | .arr xs, n => by
    rw [show spec_wrap (.arr xs)
          = .obj (.cons "type" (.str "composite")
              (.cons "data" (.arr (spec_wrapArr xs)) .nil)) from rfl,
        unwrap_tool_response_composite gen b64
          (.cons "type" (.str "composite") (.cons "data" (.arr (spec_wrapArr xs)) .nil))
          (spec_wrapArr xs) n rfl rfl,
        unwrap_spec_wrapArr gen b64 xs n]
    rfl
/-- Round trip for lists: unwrapping a wrapped list element by element
returns the original elements in order. -/
theorem unwrap_spec_wrapArr (gen : Nat → String) (b64 : String → Option (List Nat)) :
    ∀ (xs : JArr) (n : Nat),
      mapExcept (unwrap_tool_response gen b64) (spec_wrapArr xs) n = .ok (xs, n, [])
  | .nil, n => rfl
  | .cons x tl, n => by
    rw [show spec_wrapArr (.cons x tl) = .cons (spec_wrap x) (spec_wrapArr tl) from rfl]
    simp only [mapExcept, unwrap_spec_wrap gen b64 x n, unwrap_spec_wrapArr gen b64 tl n]
    rfl
end

/-- Cache hit without forced redo: the cached record is used verbatim, no
network call is made, nothing is unwrapped, and the record is re-registered. -/
theorem exec_cache_hit (c : Cache) (gen : Nat → String) (b64 : String → Option (List Nat))
    (n : Nat) (nm : String) (args : JValue) (net : NetResponse) (r : CacheRecord)
    (hq : query_tool_server_cache c EXECUTE_TOOL_URL (exec_payload nm args) = some r) :
    execute_command_client false c gen b64 n nm args net =
      ⟨classify_outcome r.tool_output r.response_status_code, false,
       regist_tool_server c EXECUTE_TOOL_URL (exec_payload nm args)
         ⟨r.tool_output, r.response_status_code⟩, n, []⟩ := by
  unfold execute_command_client
  dsimp only
  rw [hq]
  rfl

/-- Cache miss with a non-JSON status: the raw text is used and a network
call is made. -/
theorem exec_miss_text (redo : Bool) (c : Cache) (gen : Nat → String)
    (b64 : String → Option (List Nat)) (n : Nat) (nm : String) (args : JValue)
    (net : NetResponse)
    (hq : query_tool_server_cache c EXECUTE_TOOL_URL (exec_payload nm args) = none)
    (hs : ¬(net.status_code = 200 ∨ net.status_code = 450)) :
    execute_command_client redo c gen b64 n nm args net =
      ⟨classify_outcome (.str net.text) (.int net.status_code), true,
       regist_tool_server c EXECUTE_TOOL_URL (exec_payload nm args)
         ⟨.str net.text, .int net.status_code⟩, n, []⟩ := by
  unfold execute_command_client
  dsimp only
  rw [hq]
  simp [hs]

/-- Whenever a run does not abort with a propagated Python exception, the
returned pair is the classification of some (result, raw status) pair that
is also the record registered into the cache. -/
theorem exec_inversion (redo : Bool) (c : Cache) (gen : Nat → String)
    (b64 : String → Option (List Nat)) (n : Nat) (nm : String) (args : JValue)
    (net : NetResponse)
    (h : ∀ e, (execute_command_client redo c gen b64 n nm args net).outcome ≠ .error (.py e)) :
    ∃ res sc,
      (execute_command_client redo c gen b64 n nm args net).outcome = classify_outcome res sc ∧
      (execute_command_client redo c gen b64 n nm args net).cache2 =
        regist_tool_server c EXECUTE_TOOL_URL (exec_payload nm args) ⟨res, sc⟩ := by
  revert h
  unfold execute_command_client
  dsimp only
  cases hq : query_tool_server_cache c EXECUTE_TOOL_URL (exec_payload nm args) with
  | some r =>
    cases redo with
    | false => intro h; exact ⟨r.tool_output, r.response_status_code, rfl, rfl⟩
    | true =>
      by_cases hs : net.status_code = 200 ∨ net.status_code = 450
      · cases hu : unwrap_tool_response gen b64 net.json n with
        | error e =>
          intro h
          exact absurd (by simp [hs, hu]) (h e)
        | ok t =>
          rcases t with ⟨v, n2, w⟩
          intro h
          refine ⟨r.tool_output, r.response_status_code, ?_, ?_⟩ <;> simp [hs, hu]
      · intro h
        refine ⟨r.tool_output, r.response_status_code, ?_, ?_⟩ <;> simp [hs]
  | none =>
    by_cases hs : net.status_code = 200 ∨ net.status_code = 450
    · cases hu : unwrap_tool_response gen b64 net.json n with
      | error e =>
        intro h
        exact absurd (by simp [hs, hu]) (h e)
      | ok t =>
        rcases t with ⟨v, n2, w⟩
        intro h
        refine ⟨v, .int net.status_code, ?_, ?_⟩ <;> simp [hs, hu]
    · intro h
      refine ⟨.str net.text, .int net.status_code, ?_, ?_⟩ <;> simp [hs]


/-- Inversion of the retry type tag. -/
theorem is_retry_tag_spec {o : Option JValue} (h : is_retry_tag o = true) :
    o = some (.str "retry") := by
  unfold is_retry_tag at h
  split at h
  · rfl
  · exact absurd h (by simp)

/-- Inversion of the full retry directive shape. -/
theorem directive_full_spec {v : JValue} (h : directive_full v = true) :
    ∃ fs ds nc ar, v = .obj fs ∧ jlookup fs "detail" = some (.obj ds) ∧
      jlookup ds "type" = some (.str "retry") ∧
      jlookup ds "next_calling" = some nc ∧ jlookup ds "arguments" = some ar := by
  cases v with
  | null => simp [directive_full] at h
  | bool b => simp [directive_full] at h
  | int k => simp [directive_full] at h
  | str s => simp [directive_full] at h
  | arr xs => simp [directive_full] at h
  | other t => simp [directive_full] at h
  | obj fs =>
    unfold directive_full at h
    dsimp only at h
    split at h
    next ds hd =>
      rw [Bool.and_eq_true, Bool.and_eq_true] at h
      obtain ⟨⟨hmatch, hnc⟩, har⟩ := h
      obtain ⟨nc, hnc2⟩ := Option.isSome_iff_exists.mp hnc
      obtain ⟨ar, har2⟩ := Option.isSome_iff_exists.mp har
      exact ⟨fs, ds, nc, ar, rfl, hd, is_retry_tag_spec hmatch, hnc2, har2⟩
    next => exact absurd h (by simp)

/-- The retry loop performs at most `fuel` retries and sleeps 3 seconds
before each one. -/
theorem retry_bound (call : JValue → JValue → Except ExecErr (JValue × ToolCallStatusCode)) :
    ∀ (fuel : Nat) (st st2 : JValue × ToolCallStatusCode) (k : Nat) (sl : List Nat),
      retry_go call fuel st = .ok (st2, k, sl) → k ≤ fuel ∧ sl = List.replicate k 3
  | 0, st, st2, k, sl, h => by
    simp only [retry_go, Except.ok.injEq, Prod.mk.injEq] at h
    obtain ⟨-, h2, h3⟩ := h
    subst h2; subst h3
    exact ⟨Nat.le_refl 0, rfl⟩
  | fuel + 1, (res, code), st2, k, sl, h => by
    simp only [retry_go] at h
    by_cases hc : code = .TIMEOUT_ERROR
    · rw [if_pos hc] at h
      cases res with
      | obj fs =>
        dsimp only at h
        cases hd : jlookup fs "detail" with
        | none => rw [hd] at h; exact absurd h (by simp)
        | some dv =>
          rw [hd] at h
          cases dv with
          | obj ds =>
            dsimp only at h
            cases htag : is_retry_tag (jlookup ds "type") with
            | false =>
              rw [htag] at h
              simp only [Bool.false_eq_true, if_false, Except.ok.injEq, Prod.mk.injEq] at h
              obtain ⟨-, h2, h3⟩ := h
              subst h2; subst h3
              exact ⟨by omega, rfl⟩
            | true =>
              rw [htag] at h
              simp only [if_true] at h
              cases hnc : jlookup ds "next_calling" with
              | none => rw [hnc] at h; exact absurd h (by simp)
              | some nc =>
                rw [hnc] at h
                dsimp only at h
                cases har : jlookup ds "arguments" with
                | none => rw [har] at h; exact absurd h (by simp)
                | some ar =>
                  rw [har] at h
                  dsimp only at h
                  cases hcall : call nc ar with
                  | error e => rw [hcall] at h; exact absurd h (by simp)
                  | ok st3 =>
                    rw [hcall] at h
                    rcases st3 with ⟨res2, code2⟩
                    dsimp only at h
                    cases hrec : retry_go call fuel (res2, code2) with
                    | error e => rw [hrec] at h; exact absurd h (by simp)
                    | ok t =>
                      rcases t with ⟨st4, k4, sl4⟩
                      rw [hrec] at h
                      simp only [Except.ok.injEq, Prod.mk.injEq] at h
                      obtain ⟨-, h2, h3⟩ := h
                      subst h2; subst h3
                      obtain ⟨hk, hsl⟩ := retry_bound call fuel (res2, code2) st4 k4 sl4 hrec
                      subst hsl
                      exact ⟨by omega, by simp [List.replicate_succ]⟩
          | null =>
            dsimp only at h
            simp only [Except.ok.injEq, Prod.mk.injEq] at h
            obtain ⟨-, h2, h3⟩ := h
            subst h2; subst h3
            exact ⟨by omega, rfl⟩
          | bool b =>
            dsimp only at h
            simp only [Except.ok.injEq, Prod.mk.injEq] at h
            obtain ⟨-, h2, h3⟩ := h
            subst h2; subst h3
            exact ⟨by omega, rfl⟩
          | int kk =>
            dsimp only at h
            simp only [Except.ok.injEq, Prod.mk.injEq] at h
            obtain ⟨-, h2, h3⟩ := h
            subst h2; subst h3
            exact ⟨by omega, rfl⟩
          | str s =>
            dsimp only at h
            simp only [Except.ok.injEq, Prod.mk.injEq] at h
            obtain ⟨-, h2, h3⟩ := h
            subst h2; subst h3
            exact ⟨by omega, rfl⟩
          | arr xs =>
            dsimp only at h
            simp only [Except.ok.injEq, Prod.mk.injEq] at h
            obtain ⟨-, h2, h3⟩ := h
            subst h2; subst h3
            exact ⟨by omega, rfl⟩
          | other t =>
            dsimp only at h
            simp only [Except.ok.injEq, Prod.mk.injEq] at h
            obtain ⟨-, h2, h3⟩ := h
            subst h2; subst h3
            exact ⟨by omega, rfl⟩
      | null => exact absurd h (by simp)
      | bool b => exact absurd h (by simp)
      | int kk => exact absurd h (by simp)
      | str s => exact absurd h (by simp)
      | arr xs => exact absurd h (by simp)
      | other t => exact absurd h (by simp)
    · rw [if_neg hc] at h
      simp only [Except.ok.injEq, Prod.mk.injEq] at h
      obtain ⟨-, h2, h3⟩ := h
      subst h2; subst h3
      exact ⟨by omega, rfl⟩

/-- Under a persistently timing-out call with a full retry directive, the
loop runs through its whole budget, sleeping 3 seconds per retry, and still
ends on a timeout payload that carries a directive. -/
theorem retry_persistent (call : JValue → JValue → Except ExecErr (JValue × ToolCallStatusCode))
    (hp : ∀ a b, ∃ v, call a b = .ok (v, .TIMEOUT_ERROR) ∧ directive_full v = true) :
    ∀ (fuel : Nat) (v : JValue), directive_full v = true →
      ∃ vf, retry_go call fuel (v, .TIMEOUT_ERROR)
              = .ok ((vf, .TIMEOUT_ERROR), fuel, List.replicate fuel 3) ∧
            directive_full vf = true
  | 0, v, hv => ⟨v, rfl, hv⟩
  | fuel + 1, v, hv => by
    obtain ⟨fs, ds, nc, ar, rfl, hd, ht, hnc, har⟩ := directive_full_spec hv
    obtain ⟨v2, hcall, hv2⟩ := hp nc ar
    obtain ⟨vf, hrec, hvf⟩ := retry_persistent call hp fuel v2 hv2
    refine ⟨vf, ?_, hvf⟩
    simp [retry_go, hd, ht, hnc, har, hcall, hrec, is_retry_tag, List.replicate_succ]

/-- The remote branch under persistent timeouts: the full budget is used and
the terminal message replaces the last payload. -/
theorem handle_remote_call_persistent
    (call : JValue → JValue → Except ExecErr (JValue × ToolCallStatusCode))
    (hp : ∀ a b, ∃ v, call a b = .ok (v, .TIMEOUT_ERROR) ∧ directive_full v = true)
    (nm : String) (args : JValue) :
    handle_remote_call call nm args
      = .ok ((.str TERMINAL_TIMEOUT_MSG, .TIMEOUT_ERROR), MAX_RETRY, List.replicate MAX_RETRY 3) := by
  obtain ⟨v0, hcall, hv0⟩ := hp (.str nm) args
  obtain ⟨vf, hloop, hvf⟩ := retry_persistent call hp MAX_RETRY v0 hv0
  unfold handle_remote_call
  rw [hcall]
  dsimp only
  rw [hloop]
  simp

/-- The remote branch never exceeds MAX_RETRY retries, and sleeps 3 seconds
per retry performed. -/
theorem handle_remote_call_bound
    (call : JValue → JValue → Except ExecErr (JValue × ToolCallStatusCode))
    (nm : String) (args : JValue) (st : JValue × ToolCallStatusCode) (k : Nat) (sl : List Nat)
    (h : handle_remote_call call nm args = .ok (st, k, sl)) :
    k ≤ MAX_RETRY ∧ sl = List.replicate k 3 := by
  unfold handle_remote_call at h
  cases hcall : call (.str nm) args with
  | error e => rw [hcall] at h; exact absurd h (by simp)
  | ok st0 =>
    rw [hcall] at h
    dsimp only at h
    rcases st0 with ⟨res, code⟩
    cases hloop : retry_go call MAX_RETRY (res, code) with
    | error e => rw [hloop] at h; exact absurd h (by simp)
    | ok t =>
      rcases t with ⟨⟨res2, code2⟩, k2, sl2⟩
      rw [hloop] at h
      simp only [Except.ok.injEq, Prod.mk.injEq] at h
      obtain ⟨-, h2, h3⟩ := h
      subst h2; subst h3
      exact retry_bound call MAX_RETRY (res, code) (res2, code2) _ _ hloop

/-- SERVER_ERROR is assigned exactly at raw status 503. -/
theorem classify_status_server_iff (s : JValue) :
    classify_status s = .SERVER_ERROR ↔ s = .int 503 := by
  cases s with
  | int n =>
    constructor
    · intro h
      unfold classify_status at h
      dsimp only at h
      split_ifs at h
      all_goals simp_all
    · rintro h
      simp only [JValue.int.injEq] at h
      subst h
      rfl
  | null => simp [classify_status]
  | bool b => simp [classify_status]
  | str s2 => simp [classify_status]
  | arr xs => simp [classify_status]
  | obj fs => simp [classify_status]
  | other t => simp [classify_status]

/-! ## Claims -/

/-- C1: For every HTTP response status of an execute_tool call, the status
classifier assigns exactly one ToolCallStatusCode according to the table:
200 maps to TOOL_CALL_SUCCESS, 404 to HALLUCINATE_NAME, 422 to FORMAT_ERROR,
450 to TIMEOUT_ERROR, 500 to TOOL_CALL_FAILED, 503 to SERVER_ERROR, and every
other status to OTHER_ERROR; the mapping is total over all integer statuses
(being a total function on statuses, it assigns exactly one code to each). -/
theorem C1_status_classifier_total (s : Int) :
    classify_status (.int 200) = .TOOL_CALL_SUCCESS ∧
    classify_status (.int 404) = .HALLUCINATE_NAME ∧
    classify_status (.int 422) = .FORMAT_ERROR ∧
    classify_status (.int 450) = .TIMEOUT_ERROR ∧
    classify_status (.int 500) = .TOOL_CALL_FAILED ∧
    classify_status (.int 503) = .SERVER_ERROR ∧
    (s ≠ 200 → s ≠ 404 → s ≠ 422 → s ≠ 450 → s ≠ 500 → s ≠ 503 →
      classify_status (.int s) = .OTHER_ERROR) := by
  refine ⟨rfl, rfl, rfl, rfl, rfl, rfl, ?_⟩
  intro h1 h2 h3 h4 h5 h6
  simp [classify_status, h1, h2, h3, h4, h5, h6]

/-- Witness for C1 at the unmapped status 418. -/
theorem C1_status_classifier_total_witness :
    classify_status (.int 418) = .OTHER_ERROR :=
  (C1_status_classifier_total 418).2.2.2.2.2.2 (by decide) (by decide) (by decide)
    (by decide) (by decide) (by decide)

/-- C4: An HTTP 503 response to execute_tool is classified SERVER_ERROR and
raises immediately, aborting the call chain; SERVER_ERROR is the only
classified status for which the invoker raises — for every other raw status
the classification step returns the pair as data. -/
theorem C4_server_error_only_raise :
    classify_status (.int 503) = .SERVER_ERROR ∧
    (∀ (res s : JValue), s = .int 503 →
      classify_outcome res s = .error (.serverError res)) ∧
    (∀ (res s : JValue), s ≠ .int 503 →
      classify_outcome res s = .ok (res, classify_status s)) ∧
    (∀ (redo : Bool) (c : Cache) (gen : Nat → String) (b64 : String → Option (List Nat))
       (n : Nat) (nm : String) (args : JValue) (net : NetResponse),
       query_tool_server_cache c EXECUTE_TOOL_URL (exec_payload nm args) = none →
       net.status_code = 503 →
       (execute_command_client redo c gen b64 n nm args net).outcome
         = .error (.serverError (.str net.text))) := by
  refine ⟨rfl, ?_, ?_, ?_⟩
  · intro res s h
    subst h
    rfl
  · intro res s hne
    unfold classify_outcome
    rw [if_neg (fun hserv => hne ((classify_status_server_iff s).mp hserv))]
  · intro redo c gen b64 n nm args net hq hst
    rw [exec_miss_text redo c gen b64 n nm args net hq
          (by rw [hst]; decide)]
    dsimp only
    rw [hst]
    rfl

/-- Witness for C4: a 503 with an empty cache raises the server error. -/
theorem C4_server_error_only_raise_witness :
    (execute_command_client false [] gen_fixture b64_fixture 0 "mytool" .null
        ⟨503, .null, "boom"⟩).outcome
      = .error (.serverError (.str "boom")) :=
  C4_server_error_only_raise.2.2.2 false [] gen_fixture b64_fixture 0 "mytool" .null
    ⟨503, .null, "boom"⟩ rfl rfl

/-- C9 (counterexample): the claim says close never raises to its caller for
every outcome of the close exchange, including transport failure.  On the
concrete transport failure below, `close` propagates the exception to the
caller (there is no try/except and nothing is logged in the source), so the
claim as stated is false. -/
theorem C9_close_counterexample :
    ToolServerInterface.close (.error .connectionError) = .error .connectionError ∧
    ToolServerInterface.close (.error .connectionError) ≠ .ok () :=
  ⟨rfl, by simp [ToolServerInterface.close]⟩

/-- C9 (amended): the close exchange ignores the HTTP response entirely
(no raise_for_status), so no HTTP-level outcome raises; but a
transport-level exception from the POST propagates to the caller. -/
theorem C9_close_amended :
    (∀ s : Int, ToolServerInterface.close (.ok s) = .ok ()) ∧
    (∀ e : TransportErr, ToolServerInterface.close (.error e) = .error e) :=
  ⟨fun _ => rfl, fun _ => rfl⟩

/-- C6: For every input value of unrecognized shape (any value that is not a
wrapped envelope, not a mapping, and not a plain scalar, sequence, or null),
the envelope normalizer never raises: it returns null (after logging), while
plain scalars, sequences, null, and non-envelope mappings pass through
unchanged. -/
theorem C6_unrecognized_never_raises (gen : Nat → String) (b64 : String → Option (List Nat))
    (n : Nat) :
    (∀ t, unwrap_tool_response gen b64 (.other t) n = .ok (.null, n, [])) ∧
    (∀ s, unwrap_tool_response gen b64 (.str s) n = .ok (.str s, n, [])) ∧
    (∀ k : Int, unwrap_tool_response gen b64 (.int k) n = .ok (.int k, n, [])) ∧
    (∀ b : Bool, unwrap_tool_response gen b64 (.bool b) n = .ok (.bool b, n, [])) ∧
    (∀ xs : JArr, unwrap_tool_response gen b64 (.arr xs) n = .ok (.arr xs, n, [])) ∧
    (unwrap_tool_response gen b64 .null n = .ok (.null, n, [])) ∧
    (∀ fs : JObj, is_wrapped_response fs = false →
      unwrap_tool_response gen b64 (.obj fs) n = .ok (.obj fs, n, [])) := by
  refine ⟨fun t => rfl, fun s => rfl, fun k => rfl, fun b => rfl, fun xs => rfl, rfl, ?_⟩
  intro fs hw
  exact unwrap_tool_response_notWrapped gen b64 fs n hw

/-- Witness for C6: a non-envelope dict passes through unchanged. -/
theorem C6_unrecognized_never_raises_witness :
    unwrap_tool_response gen_fixture b64_fixture (.obj (.cons "foo" (.int 1) .nil)) 0
      = .ok (.obj (.cons "foo" (.int 1) .nil), 0, []) :=
  (C6_unrecognized_never_raises gen_fixture b64_fixture 0).2.2.2.2.2.2
    (.cons "foo" (.int 1) .nil) rfl

/-- C5: unwrapping the wrapped form returns the original value: simple
envelopes return their data verbatim; composite envelopes normalize each
element of data recursively with length and order preserved (the elementwise
threaded map, whose success preserves length); and normalize(wrap(x)) = x
for values of arbitrary nesting depth. -/
theorem C5_normalize_wrap_roundtrip (gen : Nat → String) (b64 : String → Option (List Nat)) :
    (∀ (fs : JObj) (d : JValue) (n : Nat),
       jlookup fs "type" = some (.str "simple") → jlookup fs "data" = some d →
       unwrap_tool_response gen b64 (.obj fs) n = .ok (d, n, [])) ∧
    (∀ (fs : JObj) (xs : JArr) (n : Nat),
       jlookup fs "type" = some (.str "composite") → jlookup fs "data" = some (.arr xs) →
       unwrap_tool_response gen b64 (.obj fs) n
           = (mapExcept (unwrap_tool_response gen b64) xs n).map (fun p => (.arr p.1, p.2)) ∧
         (∀ (vs : JArr) (n2 : Nat) (w : List (String × List Nat)),
            mapExcept (unwrap_tool_response gen b64) xs n = .ok (vs, n2, w) →
            JArr.length vs = JArr.length xs)) ∧
    (∀ (x : JValue) (n : Nat), unwrap_tool_response gen b64 (spec_wrap x) n = .ok (x, n, [])) :=
  ⟨fun fs d n ht hd => unwrap_tool_response_simple gen b64 fs d n ht hd,
   fun fs xs n ht hd =>
     ⟨unwrap_tool_response_composite gen b64 fs xs n ht hd,
      fun vs n2 w h => mapExcept_length (unwrap_tool_response gen b64) xs vs n n2 w h⟩,
   fun x n => unwrap_spec_wrap gen b64 x n⟩

/-- Witness for C5: a simple envelope returns its data verbatim. -/
theorem C5_normalize_wrap_roundtrip_witness :
    unwrap_tool_response gen_fixture b64_fixture
      (.obj (.cons "type" (.str "simple") (.cons "data" (.int 7) .nil))) 0
      = .ok (.int 7, 0, []) :=
  (C5_normalize_wrap_roundtrip gen_fixture b64_fixture).1
    (.cons "type" (.str "simple") (.cons "data" (.int 7) .nil)) (.int 7) 0 rfl rfl

/-- C7 (counterexample): the claim says every binary envelope is written to a
file under the fixed workspace root using the supplied name.  The write path
is `os.path.join('local_workspace', name)`, and POSIX join discards the root
when the name is absolute: the concrete envelope below is written to
`/evil.png`, which is not under the workspace root, so the claim as stated is
false. -/
theorem C7_binary_counterexample :
    unwrap_tool_response gen_fixture b64_fixture binary_abs_name_fixture 0
      = .ok (.obj (.cons "media_type" (.str "image/png")
                    (.cons "file_name" (.str "/evil.png") .nil)),
             1, [("/evil.png", [])]) ∧
    (str_startsWith "/evil.png" "local_workspace" = false) :=
  ⟨rfl, by decide⟩

/-- C7 (amended): for every binary envelope whose data is a string that the
base64 decoder accepts, whose media_type entry is present, and whose name is
a string (or absent, in which case a generated name is used), the normalizer
decodes the data and writes it to the POSIX join of the fixed workspace root
`local_workspace` and the final name — a path under the root exactly when the
name is relative — appending `.png` when the media type is image/png and the
name lacks that suffix, and returns the descriptor {media_type, file_name},
never the raw bytes. -/
theorem C7_binary_amended (gen : Nat → String) (b64 : String → Option (List Nat))
    (fs : JObj) (d : String) (mt : JValue) (bs : List Nat) (n : Nat)
    (ht : jlookup fs "type" = some (.str "binary"))
    (hd : jlookup fs "data" = some (.str d))
    (hm : jlookup fs "media_type" = some mt)
    (hb : b64 d = some bs) :
    (∀ s, jlookup fs "name" = some (.str s) →
       unwrap_tool_response gen b64 (.obj fs) n
         = .ok (.obj (.cons "media_type" mt
                  (.cons "file_name" (.str (binary_file_name mt s)) .nil)),
                n + 1, [(os_path_join "local_workspace" (binary_file_name mt s), bs)])) ∧
    (jlookup fs "name" = none →
       unwrap_tool_response gen b64 (.obj fs) n
         = .ok (.obj (.cons "media_type" mt
                  (.cons "file_name" (.str (binary_file_name mt (gen n))) .nil)),
                n + 1, [(os_path_join "local_workspace" (binary_file_name mt (gen n)), bs)])) ∧
    (∀ s : String, mt = .str "image/png" → str_endsWith s ".png" = false →
       binary_file_name mt s = s ++ ".png") ∧
    (∀ s : String, str_endsWith s ".png" = true → binary_file_name mt s = s) ∧
    (∀ s : String, str_startsWith s "/" = false →
       os_path_join "local_workspace" s = "local_workspace/" ++ s) := by
  refine ⟨?_, ?_, ?_, ?_, ?_⟩
  · intro s hn
    rw [unwrap_tool_response_binary gen b64 fs (.str d) n ht hd, hm, hn]
    simp [unwrap_binary_branch, hb]
  · intro hn
    rw [unwrap_tool_response_binary gen b64 fs (.str d) n ht hd, hm, hn]
    simp [unwrap_binary_branch, hb]
  · intro s hmt hnp
    subst hmt
    simp [binary_file_name, hnp]
  · intro s hp
    simp [binary_file_name, hp]
  · intro s h
    simp [os_path_join, h]

/-- Witness for the amended C7: a relative png name gets the suffix and
lands under the workspace root. -/
theorem C7_binary_amended_witness :
    unwrap_tool_response gen_fixture b64_fixture binary_rel_name_fixture 0
      = .ok (.obj (.cons "media_type" (.str "image/png")
               (.cons "file_name" (.str "pic.png") .nil)),
             1, [("local_workspace/pic.png", [])]) :=
  (C7_binary_amended gen_fixture b64_fixture
      (.cons "type" (.str "binary")
        (.cons "data" (.str "")
          (.cons "name" (.str "pic")
            (.cons "media_type" (.str "image/png") .nil))))
      "" (.str "image/png") [] 0 rfl rfl rfl rfl).1 "pic" rfl

/-- C10 (counterexample): the claim says that whenever a cached record
exists, the returned result and status come from the cache even when the
forced-redo flag is set.  With the flag set the fresh network response is
processed before the cache override, and below its unwrap raises (KeyError
media_type), so the call raises instead of returning the cached record: the
claim as stated is false. -/
theorem C10_forced_redo_counterexample :
    query_tool_server_cache c10_cache_fixture EXECUTE_TOOL_URL (exec_payload "t" .null)
      = some ⟨.str "cached", .int 200⟩ ∧
    (execute_command_client true c10_cache_fixture gen_fixture b64_fixture 0 "t" .null
        c10_net_fixture).outcome
      = .error (.py (.keyError "media_type")) :=
  ⟨rfl, rfl⟩

/-- C10 (amended): whenever a cached record exists and the forced-redo flag
is set, a fresh network call is performed, and provided the processing of the
fresh body does not raise (it is only unwrapped for statuses 200 and 450),
the fresh response is discarded: the returned result and status are the
classification of the cached record, which is also re-registered. -/
theorem C10_forced_redo_amended (c : Cache) (gen : Nat → String)
    (b64 : String → Option (List Nat)) (n : Nat) (nm : String) (args : JValue)
    (net : NetResponse) (r : CacheRecord)
    (hq : query_tool_server_cache c EXECUTE_TOOL_URL (exec_payload nm args) = some r)
    (hu : net.status_code = 200 ∨ net.status_code = 450 →
          ∃ t, unwrap_tool_response gen b64 net.json n = .ok t) :
    (execute_command_client true c gen b64 n nm args net).outcome
      = classify_outcome r.tool_output r.response_status_code ∧
    (execute_command_client true c gen b64 n nm args net).network_called = true ∧
    (execute_command_client true c gen b64 n nm args net).cache2
      = regist_tool_server c EXECUTE_TOOL_URL (exec_payload nm args)
          ⟨r.tool_output, r.response_status_code⟩ := by
  unfold execute_command_client
  dsimp only
  rw [hq]
  by_cases hs : net.status_code = 200 ∨ net.status_code = 450
  · obtain ⟨⟨v, n2, w⟩, hu2⟩ := hu hs
    rw [if_pos hs, hu2]
    exact ⟨rfl, rfl, rfl⟩
  · rw [if_neg hs]
    exact ⟨rfl, rfl, rfl⟩

/-- Witness for the amended C10: status 404 (no unwrap), cache hit, redo set:
the cached 200 record wins. -/
theorem C10_forced_redo_amended_witness :
    (execute_command_client true c10_cache_fixture gen_fixture b64_fixture 0 "t" .null
        ⟨404, .null, "nf"⟩).outcome
      = .ok (.str "cached", .TOOL_CALL_SUCCESS) :=
  (C10_forced_redo_amended c10_cache_fixture gen_fixture b64_fixture 0 "t" .null
      ⟨404, .null, "nf"⟩ ⟨.str "cached", .int 200⟩ rfl
      (fun h => absurd h (by decide))).1

/-- C3: when the forced-redo flag is not set and a cached record exists for
the (endpoint, payload) key, the invoker returns the cached output and raw
status verbatim (classifying the raw status as usual) with no network call,
no unwrap side effects, and re-registers the record; hence a request whose
first run returned a pair is answered on the second run (redo unset, any
network behavior) with the identical pair and no network call. -/
theorem C3_cache_idempotent_replay :
    (∀ (c : Cache) (gen : Nat → String) (b64 : String → Option (List Nat)) (n : Nat)
       (nm : String) (args : JValue) (net : NetResponse) (r : CacheRecord),
       query_tool_server_cache c EXECUTE_TOOL_URL (exec_payload nm args) = some r →
       execute_command_client false c gen b64 n nm args net =
         ⟨classify_outcome r.tool_output r.response_status_code, false,
          regist_tool_server c EXECUTE_TOOL_URL (exec_payload nm args)
            ⟨r.tool_output, r.response_status_code⟩, n, []⟩) ∧
    (∀ (redo : Bool) (c : Cache) (gen gen2 : Nat → String)
       (b64 b64x : String → Option (List Nat)) (n n2 : Nat)
       (nm : String) (args : JValue) (net net2 : NetResponse)
       (out : JValue) (code : ToolCallStatusCode),
       (execute_command_client redo c gen b64 n nm args net).outcome = .ok (out, code) →
       (execute_command_client false (execute_command_client redo c gen b64 n nm args net).cache2
          gen2 b64x n2 nm args net2).outcome = .ok (out, code) ∧
       (execute_command_client false (execute_command_client redo c gen b64 n nm args net).cache2
          gen2 b64x n2 nm args net2).network_called = false) := by
  constructor
  · intro c gen b64 n nm args net r hq
    exact exec_cache_hit c gen b64 n nm args net r hq
  · intro redo c gen gen2 b64 b64x n n2 nm args net net2 out code hfirst
    have hne : ∀ e, (execute_command_client redo c gen b64 n nm args net).outcome
        ≠ .error (.py e) := by
      rw [hfirst]
      intro e
      simp
    obtain ⟨res, sc, hout, hcache⟩ := exec_inversion redo c gen b64 n nm args net hne
    rw [hfirst] at hout
    unfold classify_outcome at hout
    by_cases hserv : classify_status sc = .SERVER_ERROR
    · rw [if_pos hserv] at hout
      exact absurd hout (by simp)
    · rw [if_neg hserv] at hout
      simp only [Except.ok.injEq, Prod.mk.injEq] at hout
      obtain ⟨h1, h2⟩ := hout
      subst h1
      subst h2
      rw [hcache,
          exec_cache_hit _ gen2 b64x n2 nm args net2 ⟨out, sc⟩
            (query_regist c EXECUTE_TOOL_URL (exec_payload nm args) ⟨out, sc⟩)]
      constructor
      · unfold classify_outcome
        rw [if_neg hserv]
      · rfl

/-- Witness for C3: the cache-hit fast path on a concrete one-record cache. -/
theorem C3_cache_idempotent_replay_witness :
    execute_command_client false c10_cache_fixture gen_fixture b64_fixture 0 "t" .null
        ⟨404, .null, "nf"⟩
      = ⟨.ok (.str "cached", .TOOL_CALL_SUCCESS), false,
         regist_tool_server c10_cache_fixture EXECUTE_TOOL_URL (exec_payload "t" .null)
           ⟨.str "cached", .int 200⟩, 0, []⟩ :=
  C3_cache_idempotent_replay.1 c10_cache_fixture gen_fixture b64_fixture 0 "t" .null
    ⟨404, .null, "nf"⟩ ⟨.str "cached", .int 200⟩ rfl

/-- C2: for a tool call that persistently classifies as TIMEOUT_ERROR with a
structured retry directive in its body, the dispatcher re-issues the
redirected call exactly MAX_RETRY (= 10) times — and in general never more
than MAX_RETRY times — sleeping 3 seconds before each re-issue, and when the
budget is exhausted while still timing out it returns the fixed terminal
failure string instead of the last timeout payload. -/
theorem C2_retry_bounded_terminal
    (call : JValue → JValue → Except ExecErr (JValue × ToolCallStatusCode))
    (lrs : Option String → JValue → JValue) (c : Cache) (hi : String)
    (nm : String) (args : JValue)
    (h1 : nm ≠ "subtask_submit") (h2 : nm ≠ "ask_human_for_help")
    (h3 : nm ≠ "human_interruption") (h4 : nm ≠ "")
    (hp : ∀ a b, ∃ v, call a b = .ok (v, .TIMEOUT_ERROR) ∧ directive_full v = true) :
    handle_tool_call call lrs c hi (some nm) args
      = .ok ((.str TERMINAL_TIMEOUT_MSG, .TIMEOUT_ERROR), false, MAX_RETRY + 1,
             List.replicate MAX_RETRY 3, c) ∧
    (∀ (call2 : JValue → JValue → Except ExecErr (JValue × ToolCallStatusCode))
       (nm2 : String) (args2 : JValue) (st : JValue × ToolCallStatusCode)
       (k : Nat) (sl : List Nat),
       handle_remote_call call2 nm2 args2 = .ok (st, k, sl) →
       k ≤ MAX_RETRY ∧ sl = List.replicate k 3) := by
  constructor
  · simp [handle_tool_call, Option.some.injEq, h1, h2, h3, h4,
          handle_remote_call_persistent call hp nm args]
  · intro call2 nm2 args2 st k sl h
    exact handle_remote_call_bound call2 nm2 args2 st k sl h

/-- Witness for C2: a fixture invoker that always times out with a full
directive drives the dispatcher to the terminal message after 10 retries
(11 invoker calls), with ten 3-second sleeps. -/
theorem C2_retry_bounded_terminal_witness :
    handle_tool_call call_timeout_fixture lrs_fixture [] "" (some "toolX") .null
      = .ok ((.str TERMINAL_TIMEOUT_MSG, .TIMEOUT_ERROR), false, MAX_RETRY + 1,
             List.replicate MAX_RETRY 3, []) :=
  (C2_retry_bounded_terminal call_timeout_fixture lrs_fixture [] "" "toolX" .null
      (by decide) (by decide) (by decide) (by decide)
      (fun a b => ⟨directive_fixture, rfl, rfl⟩)).1

/-- C8: for every subtask_submit invocation the dispatcher makes no network
call (zero invoker calls, result independent of the invoker), maps the
embedded success flag to SUBMIT_AS_SUCCESS when true and SUBMIT_AS_FAILED
when false, extracts the need_for_plan_refine boolean for the caller, and
returns the serialized JSON acknowledgment mentioning the submitted
submit_type. -/
theorem C8_subtask_submit_no_network
    (call : JValue → JValue → Except ExecErr (JValue × ToolCallStatusCode))
    (lrs : Option String → JValue → JValue) (c : Cache) (hi : String)
    (afs rfs sfs : JObj) (s b : Bool) (st : String)
    (h1 : jlookup afs "result" = some (.obj rfs))
    (h2 : jlookup rfs "success" = some (.bool s))
    (h3 : jlookup afs "suggestions_for_latter_subtasks_plan" = some (.obj sfs))
    (h4 : jlookup sfs "need_for_plan_refine" = some (.bool b))
    (h5 : jlookup afs "submit_type" = some (.str st)) :
    handle_tool_call call lrs c hi (some "subtask_submit") (.obj afs)
      = .ok ((.str (json_dumps_content ("you have successfully submit the subtask as " ++ st)),
              if s then .SUBMIT_AS_SUCCESS else .SUBMIT_AS_FAILED),
             b, 0, [], c) := by
  cases s <;>
    simp [handle_tool_call, handle_subtask_submit, pyGetItem, h1, h2, h3, h4, h5,
      pyTruthy, pyStr, bind, Except.bind]

/-- Witness for C8, the end-to-end example of spec §8: success true,
submit_type complete, need_for_plan_refine false. -/
theorem C8_subtask_submit_no_network_witness :
    handle_tool_call call_timeout_fixture lrs_fixture [] "" (some "subtask_submit")
        (.obj (.cons "result" (.obj (.cons "success" (.bool true) .nil))
          (.cons "suggestions_for_latter_subtasks_plan"
            (.obj (.cons "need_for_plan_refine" (.bool false) .nil))
            (.cons "submit_type" (.str "complete") .nil))))
      = .ok ((.str (json_dumps_content "you have successfully submit the subtask as complete"),
              .SUBMIT_AS_SUCCESS),
             false, 0, [], []) :=
  C8_subtask_submit_no_network call_timeout_fixture lrs_fixture [] ""
    (.cons "result" (.obj (.cons "success" (.bool true) .nil))
      (.cons "suggestions_for_latter_subtasks_plan"
        (.obj (.cons "need_for_plan_refine" (.bool false) .nil))
        (.cons "submit_type" (.str "complete") .nil)))
    (.cons "success" (.bool true) .nil)
    (.cons "need_for_plan_refine" (.bool false) .nil)
    true false "complete" rfl rfl rfl rfl rfl
